import Mathlib

/-
Verification of the PyMEOS wrapper generator (`build_pymeos_functions.py`).

The generator scans a C header for `extern` prototypes, classifies each
parameter, resolves conversions, and emits one Python wrapper per prototype.
This file is a shallow embedding of that program: every definition mirrors a
line or block of the Python source (referenced by line numbers), and the
theorems settle the specification claims about it.
-/

set_option maxRecDepth 16384

namespace PyMEOS

/-- Parameter record: the 4-tuple `(name, python type, optional conversion
statement, call expression)` returned by `get_param` (source lines 66-85). -/
structure Param where
  name : String
  ptype : String
  conv : Option String
  cexpr : String
deriving DecidableEq

instance : Inhabited Param := ⟨⟨"", "", none, ""⟩⟩

/-! Structurally recursive models of the Python string operations used by
the generator (`str.split(sep)`, `str.strip()`, `str.startswith`,
`str.endswith`, `sep.join`).  They mirror Python semantics: `split` with an
explicit separator keeps empty fields, `strip` removes ASCII whitespace at
both ends, `join` interleaves the separator. -/

/-- Helper for `pySplit`: walk the characters, cutting at each separator. -/
def splitCharAux (sep : Char) : List Char → List Char → List String
  | [], acc => [String.mk acc.reverse]
  | c :: cs, acc =>
    if c = sep then String.mk acc.reverse :: splitCharAux sep cs []
    else splitCharAux sep cs (c :: acc)

/-- Models Python `s.split(sep)` for a one-character separator (the
generator only splits on `,` and on a space): empty fields are kept and the
empty string yields one empty field. -/
def pySplit (sep : Char) (s : String) : List String :=
  splitCharAux sep s.data []

/-- Whitespace stripped by Python `str.strip()` (ASCII part). -/
def isPySpace (c : Char) : Bool :=
  c == ' ' || c == '\t' || c == '\n' || c == '\r' ||
  c == Char.ofNat 11 || c == Char.ofNat 12

/-- Models Python `s.strip()`. -/
def pyStrip (s : String) : String :=
  String.mk (((s.data.dropWhile isPySpace).reverse.dropWhile isPySpace).reverse)

/-- Models Python `s.startswith(pre)`. -/
def pyStartsWith (s pre : String) : Bool :=
  pre.data.isPrefixOf s.data

/-- Models Python `s.endswith(suf)`. -/
def pyEndsWith (s suf : String) : Bool :=
  suf.data.isSuffixOf s.data

/-- Models Python `sep.join(parts)`. -/
def pyJoin (sep : String) : List String → String
  | [] => ("")
  | [x] => x
  | x :: y :: xs => x ++ sep ++ pyJoin sep (y :: xs)

/-- Concatenation of a list of strings (join with the empty separator). -/
def sConcat : List String → String
  | [] => ("")
  | x :: xs => x ++ sConcat xs

/-- Conversion record: native type key, Python type name, optional
Python-to-C converter template and optional C-to-Python converter template
(each a function from an expression to an expression).  Mirrors the
`Conversion` class imported from `lib.objects` (not under `src/`). -/
structure Conversion where
  c_type : String
  p_type : String
  p_to_c : Option (String → String)
  c_to_p : Option (String → String)

/-- Modelled from the spec: the explicit Conversion Registry
(`conversion_map` in `lib/objects.py`, which is not under `src/`).  Per
section 4.3 of the spec the registered entries cover the primitive value
types (text, boolean, integers, floating point, timestamp, interval) with
real converters in one or both directions, and the `void` return type maps
to the "no value" marker `None` used by the synthesizer (source line 151).
The converter expression templates reference the helper functions defined in
the emitted preamble `BASE`. -/
def conversion_map : List (String × Conversion) := [
  (("void"), ⟨("void"), ("None"), none, none⟩),
  (("bool"), ⟨("bool"), ("bool"), none, none⟩),
  (("int"), ⟨("int"), ("int"), none, none⟩),
  (("double"), ⟨("double"), ("float"), none, none⟩),
  (("char *"), ⟨("char *"), ("str"),
    some (fun name => name ++ (".encode('utf-8')")),
    some (fun name => name ++ (".decode('utf-8')"))⟩),
  (("TimestampTz"), ⟨("TimestampTz"), ("datetime"),
    some (fun name => ("datetime_to_timestamptz(") ++ name ++ (")")),
    some (fun name => ("timestamptz_to_datetime(") ++ name ++ (")"))⟩),
  (("Interval *"), ⟨("Interval *"), ("timedelta"),
    some (fun name => ("timedelta_to_interval(") ++ name ++ (")")),
    some (fun name => ("interval_to_timedelta(") ++ name ++ (")"))⟩)]

/-- Lookup in the registry: models `param_type in conversion_map` /
`conversion_map[param_type]`. -/
def lookupConversion (t : String) : Option Conversion :=
  (conversion_map.find? (fun kv => kv.1 == t)).map (fun kv => kv.2)

/-- Models `param_type[:-1]` (Python slice dropping the final character). -/
def stringDropLast (s : String) : String := String.mk s.data.dropLast

/-- Embeds `get_param_conversion` (source lines 88-97): registered types are
returned verbatim; an unregistered double-pointer type synthesizes an
element-wise cast to the single-pointer type with identity C-to-Python; any
other unregistered type synthesizes a cast to the type's own name with
identity C-to-Python. -/
def get_param_conversion (param_type : String) : Option Conversion :=
  match lookupConversion param_type with
  | none =>
    if pyEndsWith param_type ("**") then
      some ⟨param_type, ("'") ++ param_type ++ ("'"),
        some (fun name => ("[_ffi.cast('") ++ stringDropLast param_type ++ ("', x) for x in ") ++ name ++ ("]")),
        some (fun name => name)⟩
    else
      some ⟨param_type, ("'") ++ param_type ++ ("'"),
        some (fun name => ("_ffi.cast('") ++ param_type ++ ("', ") ++ name ++ (")")),
        some (fun name => name)⟩
  | some conversion => some conversion

/-- Embeds `get_return_type` (source lines 100-104). -/
def get_return_type (inner_return_type : String) : String × Option String :=
  match lookupConversion inner_return_type with
  | none => (("'") ++ inner_return_type ++ ("'"), none)
  | some conversion =>
    (conversion.p_type, conversion.c_to_p.map (fun f => f ("result")))

/-- Embeds the reserved-name remap of `get_param` (source lines 74-77):
`str` becomes `string` and `is` becomes `iset`. -/
def remapName (name0 : String) : String :=
  if name0 = ("str") then ("string")
  else if name0 = ("is") then ("iset")
  else name0

/-- Embeds `get_param` (source lines 66-85): split on spaces, fold leading
`*`/`**` of the name token into the type, strip the stars from the name,
remap the reserved names `str` and `is`, omit a bare `void`, then resolve
the conversion.  (In the source the `void` test is the last arm of the
remap `if`/`elif` chain; since the remap never produces `void` and leaves
`void` unchanged, testing after the remap is equivalent.) -/
def get_param (inner_param : String) : Option Param :=
  let split := pySplit ' ' inner_param
  let param_type0 := pyJoin (" ") split.dropLast
  let lastTok := split.getLastD ("")
  let param_type :=
    if pyStartsWith lastTok ("**") then param_type0 ++ (" **")
    else if pyStartsWith lastTok ("*") then param_type0 ++ (" *")
    else param_type0
  let name0 : String := String.mk (lastTok.data.dropWhile (fun c => c == '*'))
  let param_name := remapName name0
  if param_name = ("void") then none
  else
    match get_param_conversion param_type with
    | none => some ⟨param_name, ("Any"), some (""), param_name⟩
    | some conversion =>
      match conversion.p_to_c with
      | none => some ⟨param_name, conversion.p_type, none, param_name⟩
      | some f => some ⟨param_name, conversion.p_type,
          some (param_name ++ ("_converted = ") ++ f param_name),
          param_name ++ ("_converted")⟩

/-- Embeds `get_params` (source lines 62-63): split the raw parameter list on
commas, strip each token, classify it, and drop the omitted (`void`) ones. -/
def get_params (inner_params : String) : List Param :=
  (pySplit ',' inner_params).filterMap (fun param => get_param (pyStrip param))

/-- Embeds the `manual_functions` note table (source lines 34-40). -/
def manual_functions : List (String × String) := [
  (("period_shift_tscale"), ("result parameter is also input. start and duration parameters can be null.")),
  (("timestampset_shift_tscale"), ("start and duration parameters can be null.")),
  (("periodset_shift_tscale"), ("start and duration parameters can be null.")),
  (("periodset_timestamps"), ("count is an output parameter.")),
  (("periodset_periods"), ("count is an output parameter."))]

/-- Embeds the note lookup (source lines 148-150). -/
def noteOf (function_name : String) : String :=
  match manual_functions.find? (fun kv => kv.1 == function_name) with
  | some kv => ("#TODO ") ++ kv.2 ++ ("\n")
  | none => ("")

/-- Embeds source lines 109-111: pop the last parameter as the result
carrier when there are at least two parameters and it is literally named
`result` (the Python `and` short-circuits, so `parameters[-1]` is only
indexed when the list is long enough; `getLastD` never hits its default
under the guard). -/
def splitResult (ps : List Param) : List Param × Option Param :=
  if ps.length > 1 ∧ (ps.getLastD default).name = ("result") then
    (ps.dropLast, some (ps.getLastD default))
  else (ps, none)

/-- Embeds source lines 113-115: collect the output-suffixed parameters
(after the result pop) when more than one parameter remains. -/
def outParamsOf (parameters : List Param) : List Param :=
  if parameters.length > 1 then
    parameters.filter (fun p => pyEndsWith p.name ("_out"))
  else []

/-- Embeds source line 117: the Python-visible signature, excluding output
parameters (membership is value equality, as with Python `in`). -/
def sigParams (parameters out_params : List Param) : String :=
  pyJoin (", ")
    ((parameters.filter (fun p => !(decide (p ∈ out_params)))).map
      (fun p => p.name ++ (": ") ++ p.ptype))

/-- Embeds source line 118: the joined conversion statements of non-output
parameters that have one. -/
def convStmts (parameters out_params : List Param) : String :=
  pyJoin ("\n    ")
    (parameters.filterMap (fun p => if p ∈ out_params then none else p.conv))

/-- Embeds source line 119: the native call arguments in declared order;
output parameters pass their bare name, the rest their call expression. -/
def callArgs (parameters out_params : List Param) : String :=
  pyJoin (", ")
    (parameters.map (fun pc => if pc ∈ out_params then pc.name else pc.cexpr))

/-- Embeds source line 138: allocation statement for one output parameter. -/
def allocOut (op : Param) : String :=
  ("\n    ") ++ op.name ++ (" = _ffi.new(") ++ op.ptype ++ (")")

/-- Embeds source lines 128-130: the boolean-status result branch. -/
def boolResultBranch : String :=
  ("    if result:\n        return out_result[0]\n    raise Exception(f'C call went wrong: {result}')")

/-- Embeds `build_function_string` (source lines 107-163), staged exactly as
the Python statements execute. -/
def build_function_string (function_name return_type0 : String)
    (parameters0 : List Param) (result_conversion : Option String) : String :=
  let sr := splitResult parameters0
  let parameters := sr.1
  let result_param := sr.2
  let out_params := outParamsOf parameters
  let params := sigParams parameters out_params
  let pc0 := convStmts parameters out_params
  let ip0 := callArgs parameters out_params
  let rm0 : Option String :=
    result_conversion.map (fun rc => ("    result = ") ++ rc ++ ("\n"))
  let step : String × String × Option String × String :=
    match result_param with
    | some rp =>
      (pc0 ++ ("\n    out_result = _ffi.new(") ++ rp.ptype ++ (")"),
       ip0 ++ (", out_result"),
       some ((rm0.getD ("")) ++
         (if return_type0 = ("bool") then boolResultBranch
          else ("    return out_result[0]\n"))),
       rp.ptype)
    | none =>
      (pc0, ip0, some ((rm0.getD ("")) ++ ("    return result")), return_type0)
  let pc1 := step.1 ++ sConcat (out_params.map allocOut)
  let ip1 := step.2.1
  let rm1 : Option String :=
    step.2.2.1.map (fun rm => rm ++ sConcat (out_params.map (fun op => (", ") ++ op.name)))
  let rt1 := step.2.2.2 ++ sConcat (out_params.map (fun op => (", ") ++ op.ptype))
  let rt2 := if out_params.length > 0 then ("\"Tuple[") ++ rt1 ++ ("]\"") else rt1
  let pc2 := if pc1.length > 0 then ("    ") ++ pc1 ++ ("\n") else pc1
  let note := noteOf function_name
  let body : String :=
    if rt2 = ("None") then
      (") -> ") ++ rt2 ++ (":\n") ++ pc2 ++ ("    _lib.") ++ function_name ++ ("(") ++ ip1 ++ (")")
    else
      match rm1 with
      | none =>
        (") -> ") ++ rt2 ++ (":\n") ++ pc2 ++ ("    result = _lib.") ++ function_name ++ ("(") ++ ip1 ++ (")\n    return result")
      | some rm =>
        (") -> ") ++ rt2 ++ (":\n") ++ pc2 ++ ("    result = _lib.") ++ function_name ++ ("(") ++ ip1 ++ (")\n") ++ rm
  note ++ ("def ") ++ function_name ++ ("(") ++ (params ++ body)

/-- Raw declaration extracted by the regex (source line 45): captured return
type text, function name, and raw parameter-list text. -/
structure RawDecl where
  returnType : String
  fname : String
  params : String
deriving DecidableEq

instance : Inhabited RawDecl := ⟨⟨"", "", ""⟩⟩

/-- Word characters, modelling the regex class `\w`. -/
def isWordChar (c : Char) : Bool := c.isAlphanum || c == '_'

/-- Characters of the parameter-list class `[\w ,\*]` in the regex. -/
def isParamChar (c : Char) : Bool := isWordChar c || c == ' ' || c == ',' || c == '*'

/-- First success of `f` over a list of alternatives, in priority order;
models the backtracking order of the regex engine. -/
def firstSome {α β : Type} (f : α → Option β) : List α → Option β
  | [] => none
  | a :: rest =>
    match f a with
    | some b => some b
    | none => firstSome f rest

/-- Candidate splits for a greedy `\w+`: a nonempty word-character prefix
together with the remaining text, longest prefix first (the backtracking
order the regex engine tries). -/
def wordSplits (cs : List Char) : List (List Char × List Char) :=
  let run := cs.takeWhile isWordChar
  let rest := cs.drop run.length
  (List.range run.length).map
    (fun k => (run.take (run.length - k), run.drop (run.length - k) ++ rest))

/-- Alternatives for the optional group `(?:const )?`, group-taken first. -/
def optConst (cs : List Char) : List (List Char × List Char) :=
  if cs.take 6 = ("const ").data then [(("const ").data, cs.drop 6), ([], cs)]
  else [([], cs)]

/-- Alternatives for the optional group `(?: \*+)?`: a space followed by a
greedy nonempty star run (longest first), then the group-skipped case. -/
def optStars (cs : List Char) : List (List Char × List Char) :=
  match cs with
  | ' ' :: r =>
    let stars := r.takeWhile (fun c => c == '*')
    let rest := r.drop stars.length
    if stars.length > 0 then
      ((List.range stars.length).map
        (fun k => (' ' :: stars.take (stars.length - k),
                   stars.drop (stars.length - k) ++ rest))) ++ [([], cs)]
    else [([], cs)]
  | _ => [([], cs)]

/-- Alternatives for the optional ` ?`, space-consumed first. -/
def optSpace (cs : List Char) : List (List Char) :=
  match cs with
  | ' ' :: r => [r, cs]
  | _ => [cs]

/-- Match `[\w ,\*]*\);` : the parameter-list class is disjoint from `)`, so
the greedy run is deterministic; then the literal `);` must follow. -/
def matchParams (cs : List Char) : Option (List Char × List Char) :=
  let ps := cs.takeWhile isParamChar
  let rest := cs.drop ps.length
  match rest with
  | ')' :: ';' :: r => some (ps, r)
  | _ => none

/-- Match `(?P<function>\w+)\(` followed by the parameter list. -/
def matchFn (cs : List Char) : Option (List Char × List Char × List Char) :=
  firstSome (fun wr =>
    match wr.2 with
    | '(' :: r => (matchParams r).map (fun pr => (wr.1, pr.1, pr.2))
    | _ => none) (wordSplits cs)

/-- Match the part of the extraction regex after the literal `extern `:
`(?P<returnType>(?:const )?\w+(?: \*+)?) ?(?P<function>\w+)\((?P<params>[\w ,\*]*)\);`
with the engine's greedy backtracking order.  Returns the raw declaration
and the text following the match. -/
def matchAfterExtern (cs : List Char) : Option (RawDecl × List Char) :=
  firstSome (fun cp =>
    firstSome (fun w =>
      firstSome (fun st =>
        firstSome (fun cs4 =>
          (matchFn cs4).map (fun fpr =>
            (⟨String.mk (cp.1 ++ w.1 ++ st.1), String.mk fpr.1, String.mk fpr.2.1⟩,
             fpr.2.2)))
          (optSpace st.2))
        (optStars w.2))
      (wordSplits cp.2))
    (optConst cs)

/-- Match the full extraction regex at the current position. -/
def matchAt (cs : List Char) : Option (RawDecl × List Char) :=
  if cs.take 7 = ("extern ").data then matchAfterExtern (cs.drop 7) else none

/-- Line-boundary characters removed by `''.join(content.splitlines())`
(source line 46). -/
def isLineBoundary (c : Char) : Bool :=
  c == '\n' || c == '\r' || c == Char.ofNat 11 || c == Char.ofNat 12 ||
  c == Char.ofNat 28 || c == Char.ofNat 29 || c == Char.ofNat 30 ||
  c == Char.ofNat 133 || c == Char.ofNat 8232 || c == Char.ofNat 8233

/-- Scan for successive non-overlapping leftmost matches, as `re.finditer`
does: try the current position, and on a match continue after it.  The fuel
argument bounds the recursion; every step consumes at least one character,
so fuel equal to the text length suffices. -/
def scanDecls : Nat → List Char → List RawDecl
  | 0, _ => []
  | _, [] => []
  | fuel + 1, c :: cs =>
    match matchAt (c :: cs) with
    | some dr => dr.1 :: scanDecls fuel dr.2
    | none => scanDecls fuel cs

/-- Embeds the extraction step of `main` (source lines 45-46): flatten the
text by removing line boundaries, then scan it with the declaration regex. -/
def extractDecls (content : String) : List RawDecl :=
  let flat := content.data.filter (fun c => !(isLineBoundary c))
  scanDecls flat.length flat

/-- Embeds the per-declaration work of `main`'s loop (source lines 50-57):
resolve the return type, classify the parameters, synthesize the wrapper. -/
def processDecl (d : RawDecl) : String :=
  let rt := get_return_type d.returnType
  build_function_string d.fname rt.1 (get_params d.params) rt.2

/-- The fixed preamble written before the generated wrappers (source lines
7-32). -/
def BASE : String := "from datetime import datetime, timedelta\nfrom typing import Any, Tuple\n\nimport _meos_cffi\nfrom dateutil.parser import parse\n\n_ffi = _meos_cffi.ffi\n_lib = _meos_cffi.lib\n\n\ndef datetime_to_timestamptz(dt: datetime) -> int:\n    return _lib.pg_timestamptz_in(dt.strftime('%Y-%m-%d %H:%M:%S%z').encode('utf-8'), -1)\n\n\ndef timestamptz_to_datetime(ts: int) -> datetime:\n    return parse(pg_timestamptz_out(ts))\n\n\ndef timedelta_to_interval(td: timedelta) -> Any:\n    return _ffi.new('Interval *', \x7b'time': td.microseconds + td.seconds * 1000000, 'day': td.days, 'month': 0\x7d)\n\n\ndef interval_to_timedelta(interval: Any) -> timedelta:\n    # TODO fix for months/years\n    return timedelta(days=interval.day, microseconds=interval.time)\n"

/-- Sequential accumulation of the driver's `file.write` calls (source lines
48-59): each wrapper is appended to what was already written, followed by
the blank-line separator. -/
def emitLoop : List RawDecl → String → String
  | [], acc => acc
  | d :: ds, acc => emitLoop ds (acc ++ processDecl d ++ ("\n\n\n"))

/-- Embeds `main` (source lines 42-59) as a function from the input text to
the bytes of the output artifact. -/
def generate (content : String) : String := emitLoop (extractDecls content) BASE

/-- Model of one process invocation.  The driver opens the output artifact
with mode `w+` (source line 48), which truncates whatever a previous run
left there, so the previous output content does not flow into the result;
the program keeps no other cross-run state. -/
def runGenerator (_previousOutput : String) (content : String) : String :=
  generate content

/-! Helper lemmas -/

/-- Helper: a synthesized quoted type name starts with a quote character, so
it is never the fallback text `Any`. -/
theorem quoted_ne_any (t : String) : (("'") ++ t ++ ("'")) ≠ ("Any") := by
  intro h
  have hd := congrArg String.data h
  simp only [String.data_append] at hd
  simp only [List.cons_append, List.nil_append] at hd
  injection hd with hh _
  exact absurd hh (by decide)

/-- Helper: the registry lookup never resolves a registered type to the
fallback text `Any`. -/
theorem lookup_ptype_ne_any (t : String) (c : Conversion)
    (h : lookupConversion t = some c) : c.p_type ≠ ("Any") := by
  simp only [lookupConversion, Option.map_eq_some'] at h
  obtain ⟨kv, hfind, hkv⟩ := h
  have hmem := List.mem_of_find?_eq_some hfind
  subst hkv
  simp only [conversion_map, List.mem_cons, List.not_mem_nil, or_false] at hmem
  rcases hmem with rfl | rfl | rfl | rfl | rfl | rfl | rfl <;> decide

/-- Helper: `get_param_conversion` is total — every branch of the source
function returns a Conversion (source lines 88-97 have no fallthrough). -/
theorem get_param_conversion_isSome (t : String) :
    (get_param_conversion t).isSome = true := by
  simp only [get_param_conversion]
  cases h : lookupConversion t
  · by_cases he : pyEndsWith t ("**") = true <;> simp [he]
  · rfl

/-- Helper: no Conversion produced by `get_param_conversion` carries the
Python type `Any`: registered entries map to concrete primitive types and
synthesized entries to the quoted native name. -/
theorem get_param_conversion_ptype_ne_any (t : String) (c : Conversion)
    (h : get_param_conversion t = some c) : c.p_type ≠ ("Any") := by
  simp only [get_param_conversion] at h
  split at h
  · split at h
    · injection h with h'
      subst h'
      exact quoted_ne_any t
    · injection h with h'
      subst h'
      exact quoted_ne_any t
  · next c' heq =>
    injection h with h'
    subst h'
    exact lookup_ptype_ne_any t c' heq

/-! Claim theorems -/

/-- Claim C10: conversion lookup is total — `get_param_conversion` never
returns the absent value — so the fallback branch of `get_param` that
assigns the host type `Any` is unreachable: every classified parameter's
host type comes from the registry or a synthesized cast Conversion and is
never `Any`. -/
theorem c10_conversion_total_no_any_fallback (t s : String) :
    (get_param_conversion t).isSome = true ∧
    (∀ p, get_param s = some p → p.ptype ≠ ("Any")) := by
  refine ⟨get_param_conversion_isSome t, ?_⟩
  intro p hp
  simp only [get_param] at hp
  split at hp
  · exact absurd hp (by simp)
  · split at hp
    · next heq =>
      exact absurd heq (Option.isSome_iff_ne_none.mp (get_param_conversion_isSome _))
    · next c heq =>
      split at hp <;>
        (injection hp with h'; subst h';
         exact get_param_conversion_ptype_ne_any _ c heq)

/-- Claim C10 witness: instance at the unregistered type `Foo` and the raw
parameter token `int *x`. -/
theorem c10_witness :
    (get_param_conversion ("Foo")).isSome = true ∧
    (⟨("x"), ("'int *'"), some (("x_converted = _ffi.cast('int *', x)")), ("x_converted")⟩ : Param).ptype ≠ ("Any") :=
  ⟨(c10_conversion_total_no_any_fallback ("Foo") ("int *x")).1,
   (c10_conversion_total_no_any_fallback ("Foo") ("int *x")).2 _ (by rfl)⟩

/-- Claim C6 counterexample: for the unregistered single-pointer type
`Foo *` the synthesized Conversion's native-to-host converter is the
identity — applied to the expression `x` it yields `x`, not the cast
expression `_ffi.cast('Foo *', x)` the claim asserts for both directions. -/
theorem c6_counterexample_native_to_host_not_cast :
    ((get_param_conversion ("Foo *")).bind (fun c => c.c_to_p.map (fun f => f ("x")))) = some ("x") ∧
    ¬ (((get_param_conversion ("Foo *")).bind (fun c => c.c_to_p.map (fun f => f ("x")))) = some ("_ffi.cast('Foo *', x)")) := by
  refine ⟨by rfl, ?_⟩
  intro h
  rw [show ((get_param_conversion ("Foo *")).bind (fun c => c.c_to_p.map (fun f => f ("x")))) = some ("x") from rfl] at h
  exact absurd h (by decide)

/-- Claim C6 (amended): conversion lookup is total; a registered type
returns its entry verbatim; an unregistered double-pointer type synthesizes
an element-wise cast to the single-pointer type with identity native-to-host;
an unregistered single-pointer or non-pointer type synthesizes a
host-to-native cast to the type's own name with identity native-to-host. -/
theorem c6_amended_registry_characterization (t name : String) :
    (∀ c, lookupConversion t = some c → get_param_conversion t = some c) ∧
    (lookupConversion t = none → pyEndsWith t ("**") = true →
      ∃ c, get_param_conversion t = some c ∧
        c.p_type = ("'") ++ t ++ ("'") ∧
        c.p_to_c.map (fun f => f name) = some (("[_ffi.cast('") ++ stringDropLast t ++ ("', x) for x in ") ++ name ++ ("]")) ∧
        c.c_to_p.map (fun f => f name) = some name) ∧
    (lookupConversion t = none → pyEndsWith t ("**") = false →
      ∃ c, get_param_conversion t = some c ∧
        c.p_type = ("'") ++ t ++ ("'") ∧
        c.p_to_c.map (fun f => f name) = some (("_ffi.cast('") ++ t ++ ("', ") ++ name ++ (")")) ∧
        c.c_to_p.map (fun f => f name) = some name) ∧
    (get_param_conversion t).isSome = true := by
  refine ⟨?_, ?_, ?_, get_param_conversion_isSome t⟩
  · intro c h
    simp [get_param_conversion, h]
  · intro h he
    refine ⟨⟨t, ("'") ++ t ++ ("'"),
      some (fun e => ("[_ffi.cast('") ++ stringDropLast t ++ ("', x) for x in ") ++ e ++ ("]")),
      some (fun e => e)⟩, ?_, rfl, rfl, rfl⟩
    simp [get_param_conversion, h, he]
  · intro h he
    refine ⟨⟨t, ("'") ++ t ++ ("'"),
      some (fun e => ("_ffi.cast('") ++ t ++ ("', ") ++ e ++ (")")),
      some (fun e => e)⟩, ?_, rfl, rfl, rfl⟩
    simp [get_param_conversion, h, he]

/-- Claim C6 witness: instance of the amended characterization at the
unregistered single-pointer type `Foo *` and the expression `x`. -/
theorem c6_amended_witness :
    ∃ c, get_param_conversion ("Foo *") = some c ∧
      c.p_type = ("'") ++ ("Foo *") ++ ("'") ∧
      c.p_to_c.map (fun f => f ("x")) = some (("_ffi.cast('") ++ ("Foo *") ++ ("', ") ++ ("x") ++ (")")) ∧
      c.c_to_p.map (fun f => f ("x")) = some ("x") :=
  (c6_amended_registry_characterization ("Foo *") ("x")).2.2.1 (by rfl) (by rfl)

/-- Claim C8: the generator is a function of the input text alone — the
output artifact is opened in truncating mode, so nothing a previous run
wrote flows into the result — hence two runs on identical input produce
byte-identical output, and re-running on the produced state is idempotent. -/
theorem c8_generator_deterministic_idempotent (content prev1 prev2 : String) :
    runGenerator prev1 content = runGenerator prev2 content ∧
    runGenerator (runGenerator prev1 content) content = runGenerator prev1 content :=
  ⟨rfl, rfl⟩

/-- Claim C3 counterexample: in `f(TBox *result, int x)` the parameter
literally named `result` is one of two parameters but not the last; contrary
to the claim's position-independent biconditional, no Result carrier is
detected: `result` stays in the host signature as an ordinary input and the
native return type is kept. -/
theorem c3_counterexample_result_not_last :
    (splitResult (get_params ("TBox *result, int x"))).2 = none ∧
    (get_params ("TBox *result, int x")).length = 2 ∧
    (get_params ("TBox *result, int x")).map (fun p => p.name) = [("result"), ("x")] ∧
    build_function_string ("f") (get_return_type ("bool")).1 (get_params ("TBox *result, int x")) (get_return_type ("bool")).2 =
      ("def f(result: 'TBox *', x: int) -> bool:\n    result_converted = _ffi.cast('TBox *', result)\n    result = _lib.f(result_converted, x)\n    return result") := by
  exact ⟨rfl, rfl, rfl, rfl⟩

/-- Claim C3 (amended): a parameter literally named `result` is treated as
the Result carrier iff the declaration has at least two parameters AND the
`result`-named parameter occupies the last position; the pop removes exactly
that last parameter from the list. -/
theorem c3_amended_result_iff_last_position (ps : List Param) :
    ((splitResult ps).2.isSome = true ↔
      (ps.length ≥ 2 ∧ (ps.getLastD default).name = ("result"))) ∧
    (∀ lp, (splitResult ps).2 = some lp →
      (splitResult ps).1 = ps.dropLast ∧ ps.getLastD default = lp) := by
  unfold splitResult
  by_cases h : ps.length > 1 ∧ (ps.getLastD default).name = ("result")
  · rw [if_pos h]
    constructor
    · simp only [Option.isSome_some, true_iff]
      exact ⟨h.1, h.2⟩
    · intro lp h'
      injection h' with h'
      exact ⟨rfl, h'⟩
  · rw [if_neg h]
    constructor
    · simp only [Option.isSome_none, Bool.false_eq_true, false_iff]
      intro hc
      exact h ⟨hc.1, hc.2⟩
    · intro lp h'
      exact absurd h' (by simp)

/-- Claim C3 witness: instance of the amended statement at a two-parameter
list whose last parameter is named `result`. -/
theorem c3_amended_witness :
    (splitResult [⟨("a"), ("int"), none, ("a")⟩, ⟨("result"), ("'TBox *'"), none, ("result")⟩]).1 = [⟨("a"), ("int"), none, ("a")⟩] ∧
    ([⟨("a"), ("int"), none, ("a")⟩, (⟨("result"), ("'TBox *'"), none, ("result")⟩ : Param)]).getLastD default = ⟨("result"), ("'TBox *'"), none, ("result")⟩ :=
  (c3_amended_result_iff_last_position _).2 _ (by rfl)

/-- Claim C1, the code evaluated at the failing input: a declaration that
combines a trailing `result` parameter with an output-suffixed parameter is
not rejected — extraction succeeds and the synthesizer emits a wrapper
string; the emitted wrapper is malformed (the boolean-status branch is
followed by `, count_out`, and the output buffer never reaches the success
return), demonstrating the silent miscompilation the spec forbids. -/
theorem c1_result_and_output_not_rejected :
    extractDecls ("extern bool cubb(Span *s, int *count_out, TBox *result);") =
      [⟨("bool"), ("cubb"), ("Span *s, int *count_out, TBox *result")⟩] ∧
    processDecl ⟨("bool"), ("cubb"), ("Span *s, int *count_out, TBox *result")⟩ =
      ("def cubb(s: 'Span *') -> \"Tuple['TBox *', 'int *']\":\n    s_converted = _ffi.cast('Span *', s)\n    out_result = _ffi.new('TBox *')\n    count_out = _ffi.new('int *')\n    result = _lib.cubb(s_converted, count_out, out_result)\n    if result:\n        return out_result[0]\n    raise Exception(f'C call went wrong: {result}'), count_out") := by
  exact ⟨by rfl, by rfl⟩

/-- Helper: a success of `firstSome` comes from one of the alternatives. -/
theorem firstSome_eq_some {α β : Type} (f : α → Option β) :
    ∀ (l : List α) (b : β), firstSome f l = some b → ∃ a ∈ l, f a = some b := by
  intro l
  induction l with
  | nil => intro b h; simp [firstSome] at h
  | cons a rest ih =>
    intro b h
    simp only [firstSome] at h
    split at h
    · next b' hfa =>
      injection h with h'
      subst h'
      exact ⟨a, List.mem_cons_self a rest, hfa⟩
    · next hfa =>
      obtain ⟨x, hx, hfx⟩ := ih _ h
      exact ⟨x, List.mem_cons_of_mem a hx, hfx⟩

/-- Helper: a successful parameter-list match captures only characters of
the class `[\w ,\*]` (it is produced by `takeWhile isParamChar`). -/
theorem matchParams_all (cs : List Char) (pr : List Char × List Char)
    (h : matchParams cs = some pr) : pr.1.all isParamChar = true := by
  simp only [matchParams] at h
  split at h
  · injection h with h'
    subst h'
    exact List.all_takeWhile ..
  · exact absurd h (by simp)

/-- Helper: the parameter capture of a function-name-and-parameters match
contains only parameter-class characters. -/
theorem matchFn_all (cs : List Char) (fpr : List Char × List Char × List Char)
    (h : matchFn cs = some fpr) : fpr.2.1.all isParamChar = true := by
  obtain ⟨wr, hmem, hwr⟩ := firstSome_eq_some _ _ _ h
  split at hwr
  · next rr heq =>
    simp only [Option.map_eq_some'] at hwr
    obtain ⟨pr, hmp, hpr⟩ := hwr
    subst hpr
    exact matchParams_all _ _ hmp
  · exact absurd hwr (by simp)

/-- Helper: the parameter capture of any full match after `extern ` contains
only parameter-class characters. -/
theorem matchAfterExtern_all (cs : List Char) (dr : RawDecl × List Char)
    (h : matchAfterExtern cs = some dr) : dr.1.params.data.all isParamChar = true := by
  obtain ⟨cp, hcp, h1⟩ := firstSome_eq_some _ _ _ h
  obtain ⟨w, hw, h2⟩ := firstSome_eq_some _ _ _ h1
  obtain ⟨st, hst, h3⟩ := firstSome_eq_some _ _ _ h2
  obtain ⟨cs4, hcs4, h4⟩ := firstSome_eq_some _ _ _ h3
  simp only [Option.map_eq_some'] at h4
  obtain ⟨fpr, hmf, hdr⟩ := h4
  subst hdr
  exact matchFn_all _ _ hmf

/-- Claim C5 counterexample: declarations with more than two levels of
pointer indirection are NOT skipped — the extractor produces a raw
declaration both for a triple-pointer parameter and for a triple-pointer
return type, so a wrapper is emitted for them. -/
theorem c5_counterexample_deep_pointers_extracted :
    extractDecls ("extern int f(int ***x);") = [⟨("int"), ("f"), ("int ***x")⟩] ∧
    extractDecls ("extern int ***h(void);") = [⟨("int ***"), ("h"), ("void")⟩] :=
  ⟨by rfl, by rfl⟩

/-- Claim C5 (amended): the captured parameter text of every extracted
declaration consists only of word characters, spaces, commas and asterisks —
so variadic parameter lists (which contain `.`) and function-pointer
parameters (which contain parentheses) are never captured, and in
particular a variadic or function-pointer declaration yields no raw
declaration — but pointer depth is not restricted by the grammar. -/
theorem c5_amended_extraction_charset :
    (∀ cs dr, matchAt cs = some dr → dr.1.params.data.all isParamChar = true) ∧
    extractDecls ("extern int f(int a, ...);") = [] ∧
    extractDecls ("extern int g(int (*cb)(int), int x);") = [] := by
  refine ⟨?_, by rfl, by rfl⟩
  intro cs dr h
  simp only [matchAt] at h
  split at h
  · exact matchAfterExtern_all _ _ h
  · exact absurd h (by simp)

/-- Claim C5 witness: instance of the charset property at the extracted
triple-pointer declaration. -/
theorem c5_amended_witness :
    ((("int ***x") : String)).data.all isParamChar = true :=
  c5_amended_extraction_charset.1 (("extern int f(int ***x);") : String).data
    (⟨("int"), ("f"), ("int ***x")⟩, []) (by rfl)

/-- Helper: the synthesizer applied to an empty parameter list produces a
wrapper whose signature is empty (the text between `(` and `) -> ` is
empty). -/
theorem build_nil_params (fn rt0 : String) (rc : Option String) :
    ∃ rest, build_function_string fn rt0 [] rc =
      noteOf fn ++ ("def ") ++ fn ++ ("(") ++ (") -> ") ++ rest := by
  have h1 : splitResult ([] : List Param) = ([], none) := rfl
  have h2 : outParamsOf ([] : List Param) = [] := rfl
  have h3 : sigParams [] [] = ("") := rfl
  have h4 : convStmts [] [] = ("") := rfl
  have h5 : callArgs [] [] = ("") := rfl
  have h6 : sConcat (List.map allocOut []) = ("") := rfl
  by_cases hN : rt0 = ("None")
  · subst hN
    refine ⟨("None:\n    _lib.") ++ fn ++ ("()"), ?_⟩
    apply String.ext
    simp [build_function_string, h1, h2, h3, h4, h5, h6, sConcat,
      String.append_empty, String.empty_append, String.data_append,
      List.append_assoc, List.cons_append, List.nil_append]
  · refine ⟨rt0 ++ (":\n") ++ ("    result = _lib.") ++ fn ++ ("(") ++ (")\n") ++
      ((rc.map (fun r => ("    result = ") ++ r ++ ("\n"))).getD ("")) ++ ("    return result"), ?_⟩
    apply String.ext
    simp [build_function_string, h1, h2, h3, h4, h5, h6, sConcat, hN,
      String.append_empty, String.empty_append, String.data_append,
      List.append_assoc, List.cons_append, List.nil_append]

/-- Claim C9: a raw parameter list that is exactly the bare token `void`
(after comma-splitting and stripping) classifies to the empty parameter
list — the classifier returns the omit value for the bare `void` token —
and the generated wrapper takes no parameters. -/
theorem c9_void_empty_params (s fn irt : String)
    (h : (pySplit ',' s).map pyStrip = [("void")]) :
    get_param ("void") = none ∧
    get_params s = [] ∧
    (∃ rest, processDecl ⟨irt, fn, s⟩ =
      noteOf fn ++ ("def ") ++ fn ++ ("(") ++ (") -> ") ++ rest) := by
  have h2 : get_params s = [] := by
    unfold get_params
    cases hsp : pySplit ',' s with
    | nil => simp
    | cons a t =>
      cases t with
      | nil =>
        rw [hsp] at h
        simp only [List.map_cons, List.map_nil] at h
        injection h with ha _
        simp only [List.filterMap_cons, ha]
        rfl
      | cons b t2 =>
        rw [hsp] at h
        simp at h
  refine ⟨rfl, h2, ?_⟩
  unfold processDecl
  rw [h2]
  exact build_nil_params fn (get_return_type irt).1 (get_return_type irt).2

/-- Claim C9 witness: instance at the declaration `extern double pi(void);`. -/
theorem c9_witness :
    get_param ("void") = none ∧
    get_params ("void") = [] ∧
    (∃ rest, processDecl ⟨("double"), ("pi"), ("void")⟩ =
      noteOf ("pi") ++ ("def ") ++ ("pi") ++ ("(") ++ (") -> ") ++ rest) :=
  c9_void_empty_params ("void") ("pi") ("double") (by rfl)

/-- Helper: `filterMap` only depends on the function's values on members. -/
theorem filterMap_congr_mem {α β : Type} (l : List α) (f g : α → Option β)
    (h : ∀ a ∈ l, f a = g a) : l.filterMap f = l.filterMap g := by
  induction l with
  | nil => rfl
  | cons a t ih =>
    simp only [List.filterMap_cons]
    rw [h a (List.mem_cons_self a t), ih (fun x hx => h x (List.mem_cons_of_mem a hx))]

/-- Helper: the Result pop on a list ending in a `result`-named parameter
removes exactly that last parameter. -/
theorem splitResult_concat (init : List Param) (lp : Param)
    (h : init ≠ []) (hn : lp.name = ("result")) :
    splitResult (init ++ [lp]) = (init, some lp) := by
  have hlast : (init ++ [lp]).getLastD default = lp := by
    simp [List.getLastD_eq_getLast?, List.getLast?_concat]
  have hpos : 0 < init.length := List.length_pos.mpr h
  have hlen : (init ++ [lp]).length > 1 := by
    simp only [List.length_append, List.length_cons, List.length_nil]
    omega
  unfold splitResult
  rw [if_pos ⟨hlen, by rw [hlast]; exact hn⟩, hlast, List.dropLast_concat]

/-- Helper: no Result pop happens when the last parameter is not named
`result`. -/
theorem splitResult_keep (ps : List Param)
    (h : (ps.getLastD default).name ≠ ("result")) :
    splitResult ps = (ps, none) := by
  unfold splitResult
  rw [if_neg (fun hc => h hc.2)]

/-- Helper: a parameter list with no output-suffixed names yields no output
parameters. -/
theorem outParamsOf_no (l : List Param)
    (h : ∀ p ∈ l, pyEndsWith p.name ("_out") = false) :
    outParamsOf l = [] := by
  unfold outParamsOf
  split
  · exact List.filter_eq_nil_iff.mpr (fun p hp => by simp [h p hp])
  · rfl

/-- Helper: with no output parameters the host signature lists every
parameter. -/
theorem sigParams_nil (l : List Param) :
    sigParams l [] = pyJoin (", ") (l.map (fun p => p.name ++ (": ") ++ p.ptype)) := by
  unfold sigParams
  simp

/-- Helper: with no output parameters the conversion block lists every
parameter's conversion statement. -/
theorem convStmts_nil (l : List Param) :
    convStmts l [] = pyJoin ("\n    ") (l.filterMap (fun p => p.conv)) := by
  unfold convStmts
  simp

/-- Helper: with no output parameters every native argument is the call
expression. -/
theorem callArgs_nil (l : List Param) :
    callArgs l [] = pyJoin (", ") (l.map (fun pc => pc.cexpr)) := by
  unfold callArgs
  simp

/-- Claim C2: for a declaration with at least two parameters whose last
parameter is named `result` (and no output-suffixed parameter — the
Result-and-Output combination is the separately rejected configuration of
C1) and whose native return type resolves to the host type `bool`, the
generated wrapper removes `result` from the host signature, declares the
Result parameter's host type as its return type, allocates a native buffer
`out_result` passed in `result`'s (last) position, and after the call
returns `out_result[0]` on a true status and raises an exception carrying
the literal status value on a false one. -/
theorem c2_result_bool_status (fn irt : String) (init : List Param) (lp : Param)
    (hinit : init ≠ [])
    (hname : lp.name = ("result"))
    (hptype : lp.ptype ≠ ("None"))
    (hbool : (get_return_type irt).1 = ("bool"))
    (hno : ∀ p ∈ init, pyEndsWith p.name ("_out") = false) :
    build_function_string fn (get_return_type irt).1 (init ++ [lp]) (get_return_type irt).2 =
      noteOf fn ++ ("def ") ++ fn ++ ("(") ++
        (pyJoin (", ") (init.map (fun p => p.name ++ (": ") ++ p.ptype)) ++
        ((") -> ") ++ lp.ptype ++ (":\n") ++
        (("    ") ++ (pyJoin ("\n    ") (init.filterMap (fun p => p.conv)) ++
          ("\n    out_result = _ffi.new(") ++ lp.ptype ++ (")")) ++ ("\n")) ++
        ("    result = _lib.") ++ fn ++ ("(") ++
        (pyJoin (", ") (init.map (fun pc => pc.cexpr)) ++ (", out_result")) ++ (")\n") ++
        ((((get_return_type irt).2.map (fun rc => ("    result = ") ++ rc ++ ("\n"))).getD ("")) ++
        boolResultBranch))) := by
  rw [hbool]
  have hsp := splitResult_concat init lp hinit hname
  have hout : outParamsOf init = [] := outParamsOf_no init hno
  have hL : 0 < (("\n    out_result = _ffi.new(") : String).length := by decide
  apply String.ext
  simp [build_function_string, hsp, hout, sigParams_nil, convStmts_nil, callArgs_nil,
    hptype, hL, sConcat, String.append_empty, String.empty_append,
    String.data_append, List.append_assoc, List.cons_append, List.nil_append]

/-- Claim C2 witness: the spec's example 4,
`extern bool tbox_make(Span *s, Period *p, TBox *result);`. -/
theorem c2_witness :
    build_function_string ("tbox_make") (get_return_type ("bool")).1
      (get_params ("Span *s, Period *p, TBox *result")) (get_return_type ("bool")).2 =
      ("def tbox_make(s: 'Span *', p: 'Period *') -> 'TBox *':\n    s_converted = _ffi.cast('Span *', s)\n    p_converted = _ffi.cast('Period *', p)\n    out_result = _ffi.new('TBox *')\n    result = _lib.tbox_make(s_converted, p_converted, out_result)\n    if result:\n        return out_result[0]\n    raise Exception(f'C call went wrong: {result}')") := by
  have h := c2_result_bool_status ("tbox_make") ("bool")
    [⟨("s"), ("'Span *'"), some (("s_converted = _ffi.cast('Span *', s)")), ("s_converted")⟩,
     ⟨("p"), ("'Period *'"), some (("p_converted = _ffi.cast('Period *', p)")), ("p_converted")⟩]
    ⟨("result"), ("'TBox *'"), some (("result_converted = _ffi.cast('TBox *', result)")), ("result_converted")⟩
    (by simp) (by rfl) (by decide) (by rfl) (by decide)
  rw [show get_params ("Span *s, Period *p, TBox *result") =
    [⟨("s"), ("'Span *'"), some (("s_converted = _ffi.cast('Span *', s)")), ("s_converted")⟩,
     ⟨("p"), ("'Period *'"), some (("p_converted = _ffi.cast('Period *', p)")), ("p_converted")⟩,
     ⟨("result"), ("'TBox *'"), some (("result_converted = _ffi.cast('TBox *', result)")), ("result_converted")⟩] from rfl]
  rw [show ([⟨("s"), ("'Span *'"), some (("s_converted = _ffi.cast('Span *', s)")), ("s_converted")⟩,
     ⟨("p"), ("'Period *'"), some (("p_converted = _ffi.cast('Period *', p)")), ("p_converted")⟩,
     ⟨("result"), ("'TBox *'"), some (("result_converted = _ffi.cast('TBox *', result)")), ("result_converted")⟩] : List Param) =
    [⟨("s"), ("'Span *'"), some (("s_converted = _ffi.cast('Span *', s)")), ("s_converted")⟩,
     ⟨("p"), ("'Period *'"), some (("p_converted = _ffi.cast('Period *', p)")), ("p_converted")⟩] ++
    [⟨("result"), ("'TBox *'"), some (("result_converted = _ffi.cast('TBox *', result)")), ("result_converted")⟩] from rfl]
  rw [h]
  rfl

/-- Helper: with more than one parameter the output detection is the
name-suffix filter. -/
theorem outParamsOf_pos (ps : List Param) (h : ps.length > 1) :
    outParamsOf ps = ps.filter (fun p => pyEndsWith p.name ("_out")) := by
  unfold outParamsOf
  rw [if_pos h]

/-- Helper: membership in the output list (Python value equality) agrees
with the name-suffix test for parameters of the declaration. -/
theorem sigParams_outs (ps : List Param) :
    sigParams ps (ps.filter (fun p => pyEndsWith p.name ("_out"))) =
      pyJoin (", ") ((ps.filter (fun p => !(pyEndsWith p.name ("_out")))).map
        (fun p => p.name ++ (": ") ++ p.ptype)) := by
  have h : ps.filter (fun p => !(decide (p ∈ ps.filter (fun q2 => pyEndsWith q2.name ("_out"))))) =
      ps.filter (fun p => !(pyEndsWith p.name ("_out"))) := by
    apply List.filter_congr
    intro p hp
    cases hq : pyEndsWith p.name ("_out") <;> simp [List.mem_filter, hp, hq]
  unfold sigParams
  rw [h]

/-- Helper: the conversion block with output parameters excluded by
membership equals the one excluded by name suffix. -/
theorem convStmts_outs (ps : List Param) :
    convStmts ps (ps.filter (fun p => pyEndsWith p.name ("_out"))) =
      pyJoin ("\n    ") (ps.filterMap (fun p => if pyEndsWith p.name ("_out") then none else p.conv)) := by
  unfold convStmts
  congr 1
  apply filterMap_congr_mem
  intro p hp
  cases hq : pyEndsWith p.name ("_out") <;> simp [List.mem_filter, hp, hq]

/-- Helper: the native call arguments with output parameters passed by name
equal the name-suffix formulation. -/
theorem callArgs_outs (ps : List Param) :
    callArgs ps (ps.filter (fun p => pyEndsWith p.name ("_out"))) =
      pyJoin (", ") (ps.map (fun pc => if pyEndsWith pc.name ("_out") then pc.name else pc.cexpr)) := by
  unfold callArgs
  congr 1
  apply List.map_congr_left
  intro p hp
  cases hq : pyEndsWith p.name ("_out") <;> simp [List.mem_filter, hp, hq]

/-- Helper: the concatenated allocation statements of a nonempty output
list are nonempty. -/
theorem sConcat_allocOut_pos (l : List Param) (h : l ≠ []) :
    0 < (sConcat (l.map allocOut)).length := by
  cases l with
  | nil => exact absurd rfl h
  | cons a t =>
    have h5 : 0 < (("\n    ") : String).length := by decide
    simp only [List.map_cons, sConcat, allocOut, String.length_append]
    omega

/-- Helper: a Tuple-wrapped return type annotation is never the `None`
marker. -/
theorem tuple_ne_none (x : String) : (("\"Tuple[") ++ x ++ ("]\"")) ≠ ("None") := by
  intro h
  have hd := congrArg String.data h
  simp only [String.data_append, List.cons_append, List.nil_append] at hd
  injection hd with hh _
  exact absurd hh (by decide)

/-- Claim C4: for a declaration with at least two parameters and no Result
carrier, every output-suffixed parameter is excluded from the host
signature but kept in native-call order (passed by bare name in its
declared position); the wrapper's return type is the Tuple of the resolved
native return type followed by the output types in declared order, and the
return statement yields the (possibly converted) primary result followed by
each output buffer, in declared order. -/
theorem c4_output_params_tuple (fn irt : String) (ps : List Param)
    (hlen : ps.length > 1)
    (hnr : (ps.getLastD default).name ≠ ("result"))
    (houts : ps.filter (fun p => pyEndsWith p.name ("_out")) ≠ []) :
    build_function_string fn (get_return_type irt).1 ps (get_return_type irt).2 =
      noteOf fn ++ ("def ") ++ fn ++ ("(") ++
        (pyJoin (", ") ((ps.filter (fun p => !(pyEndsWith p.name ("_out")))).map
            (fun p => p.name ++ (": ") ++ p.ptype)) ++
         ((") -> ") ++ (("\"Tuple[") ++ ((get_return_type irt).1 ++
            sConcat ((ps.filter (fun p => pyEndsWith p.name ("_out"))).map (fun op => (", ") ++ op.ptype))) ++ ("]\"")) ++ (":\n") ++
         (("    ") ++ (pyJoin ("\n    ") (ps.filterMap (fun p => if pyEndsWith p.name ("_out") then none else p.conv)) ++
            sConcat ((ps.filter (fun p => pyEndsWith p.name ("_out"))).map allocOut)) ++ ("\n")) ++
         ("    result = _lib.") ++ fn ++ ("(") ++
         pyJoin (", ") (ps.map (fun pc => if pyEndsWith pc.name ("_out") then pc.name else pc.cexpr)) ++ (")\n") ++
         ((((get_return_type irt).2.map (fun rc => ("    result = ") ++ rc ++ ("\n"))).getD ("")) ++
          (("    return result") ++
           sConcat ((ps.filter (fun p => pyEndsWith p.name ("_out"))).map (fun op => (", ") ++ op.name)))))) := by
  have hsp := splitResult_keep ps hnr
  have hop := outParamsOf_pos ps hlen
  have hcat := sConcat_allocOut_pos _ houts
  have hpos2 : 0 < (ps.filter (fun p => pyEndsWith p.name ("_out"))).length :=
    List.length_pos.mpr houts
  apply String.ext
  simp [build_function_string, hsp, hop, sigParams_outs, convStmts_outs, callArgs_outs,
    tuple_ne_none, hcat, hpos2, sConcat, String.append_empty, String.empty_append,
    String.data_append, List.append_assoc, List.cons_append, List.nil_append]

/-- Claim C4 witness: the spec's example 2 with the `count` parameter
carrying the output-marker suffix,
`extern int periodset_timestamps(PeriodSet *ps, TimestampTz **times, int *count_out);`. -/
theorem c4_witness :
    build_function_string ("periodset_timestamps") (get_return_type ("int")).1
      (get_params ("PeriodSet *ps, TimestampTz **times, int *count_out")) (get_return_type ("int")).2 =
      ("#TODO count is an output parameter.\ndef periodset_timestamps(ps: 'PeriodSet *', times: 'TimestampTz **') -> \"Tuple[int, 'int *']\":\n    ps_converted = _ffi.cast('PeriodSet *', ps)\n    times_converted = [_ffi.cast('TimestampTz *', x) for x in times]\n    count_out = _ffi.new('int *')\n    result = _lib.periodset_timestamps(ps_converted, times_converted, count_out)\n    return result, count_out") := by
  have h := c4_output_params_tuple ("periodset_timestamps") ("int")
    [⟨("ps"), ("'PeriodSet *'"), some (("ps_converted = _ffi.cast('PeriodSet *', ps)")), ("ps_converted")⟩,
     ⟨("times"), ("'TimestampTz **'"), some (("times_converted = [_ffi.cast('TimestampTz *', x) for x in times]")), ("times_converted")⟩,
     ⟨("count_out"), ("'int *'"), some (("count_out_converted = _ffi.cast('int *', count_out)")), ("count_out_converted")⟩]
    (by decide) (by decide) (by decide)
  rw [show get_params ("PeriodSet *ps, TimestampTz **times, int *count_out") =
    [⟨("ps"), ("'PeriodSet *'"), some (("ps_converted = _ffi.cast('PeriodSet *', ps)")), ("ps_converted")⟩,
     ⟨("times"), ("'TimestampTz **'"), some (("times_converted = [_ffi.cast('TimestampTz *', x) for x in times]")), ("times_converted")⟩,
     ⟨("count_out"), ("'int *'"), some (("count_out_converted = _ffi.cast('int *', count_out)")), ("count_out_converted")⟩] from rfl]
  rw [h]
  rfl

/-- Helper: the driver's sequential writes accumulate to the starting
content followed by the wrappers in list order. -/
theorem emitLoop_eq (ds : List RawDecl) (acc : String) :
    emitLoop ds acc = acc ++ sConcat (ds.map (fun d => processDecl d ++ ("\n\n\n"))) := by
  induction ds generalizing acc with
  | nil => simp [emitLoop, sConcat, String.append_empty]
  | cons d t ih =>
    simp only [emitLoop, List.map_cons, sConcat, ih, String.append_assoc]

/-- Helper: every synthesized wrapper begins with its optional note followed
by the definition line `def <name>(`. -/
theorem build_function_string_defline (fn rt0 : String) (ps : List Param) (rc : Option String) :
    ∃ tail, build_function_string fn rt0 ps rc =
      noteOf fn ++ ("def ") ++ fn ++ ("(") ++ tail :=
  ⟨_, rfl⟩

/-- Claim C7: the output artifact is exactly the fixed preamble followed by
one wrapper per extracted declaration, in extraction (source) order,
separated by the blank-line convention; each wrapper carries the same
function name as its declaration on its `def` line. -/
theorem c7_completeness_order (content : String) :
    generate content = BASE ++ sConcat ((extractDecls content).map (fun d => processDecl d ++ ("\n\n\n"))) ∧
    (∀ d ∈ extractDecls content, ∃ tail, processDecl d =
      noteOf d.fname ++ ("def ") ++ d.fname ++ ("(") ++ tail) := by
  constructor
  · exact emitLoop_eq _ _
  · intro d _
    exact build_function_string_defline d.fname (get_return_type d.returnType).1
      (get_params d.params) (get_return_type d.returnType).2

/-- Claim C7 witness: a two-declaration input, in order, and the def-line
property at its first extracted declaration. -/
theorem c7_witness :
    (extractDecls ("extern int f(void); extern bool g(int x);")).map (fun d => d.fname) = [("f"), ("g")] ∧
    (∃ tail, processDecl ⟨("int"), ("f"), ("void")⟩ =
      noteOf ("f") ++ ("def ") ++ ("f") ++ ("(") ++ tail) := by
  refine ⟨by rfl, ?_⟩
  exact (c7_completeness_order ("extern int f(void); extern bool g(int x);")).2
    ⟨("int"), ("f"), ("void")⟩ (by decide)

end PyMEOS
